import Mathlib

/-!
Shallow embedding of the raffApp backend HTTP service (server.js).

The source registers one Express handler per endpoint.  Each handler is
embedded here as a pure Lean function from the relevant table state and the
request inputs to a `Response` (and the updated table state for mutating
endpoints).  Request-body fields are `Option String` (a missing JSON field is
`none`; JavaScript treats both `undefined` and `""` as falsy, so presence
checks test for both).  External collaborators (the PostgreSQL store, bcryptjs
and jsonwebtoken) are modelled by small executable stand-ins below; a `fault`
flag on a handler models an exception thrown by the store round trip inside
the handler's try block.
-/

namespace RaffApp

/-- The claims object embedded in a signed token: `{ id, username, role }`,
exactly the fields `jwt.sign` receives in both login handlers. -/
structure Claims where
  id : Nat
  username : String
  role : String
deriving DecidableEq, Repr

/-- A signed token: the claims, the absolute expiry instant (`iat + expiresIn`),
and the secret it was signed with.  Models the output of `jwt.sign`. -/
structure Token where
  claims : Claims
  exp : Nat
  secret : String
deriving DecidableEq, Repr

/-- Model of `jwt.sign(claims, secret, { expiresIn })` at instant `now`. -/
def jwtSign (c : Claims) (secret : String) (now expiresIn : Nat) : Token :=
  ⟨c, now + expiresIn, secret⟩

/-- A string presented where a serialized token is expected: either a token
that was actually produced by `jwtSign`, or arbitrary other text. -/
inductive TokenStr where
  | valid : Token → TokenStr
  | garbage : String → TokenStr
deriving DecidableEq, Repr

/-- Model of `jwt.verify(token, secret)` at instant `now`: succeeds with the
embedded claims when the token was signed with the same secret and is not yet
expired; otherwise it throws, modelled as `none`. -/
def jwtVerifyStr : TokenStr → String → Nat → Option Claims
  | .valid t, secret, now => if t.secret = secret ∧ now < t.exp then some t.claims else none
  | .garbage _, _, _ => none

/-- Model of the external salted hasher `bcrypt.hash(p, 10)`. -/
def bcryptHash (p : String) : String := "bc2a" ++ p

/-- Model of `bcrypt.compare(p, hash)`.  bcryptjs rejects with an
Illegal-arguments error when the candidate password is not a string (e.g. the
body field was absent, so the handler passed `undefined`); that rejection is
an exception at the `await`, modelled as `.error`. -/
def bcryptCompare : Option String → String → Except Unit Bool
  | none, _ => .error ()
  | some p, h => .ok (h == bcryptHash p)

/-- JSON values as produced by the handlers via `res.json`.  A signed token
serialized into a body is the `jtok` leaf. -/
inductive Json where
  | str : String → Json
  | num : Int → Json
  | jtok : Token → Json
  | arr : List Json → Json
  | obj : List (String × Json) → Json
deriving Repr

/-- Whether a JSON object carries a field with the given key. -/
def Json.hasKey : Json → String → Bool
  | .obj fields, k => fields.any (fun kv => kv.1 == k)
  | _, _ => false

/-- An HTTP response: status code and JSON body. -/
structure Response where
  status : Nat
  body : Json
deriving Repr

/-- The `{ error: msg }` body every non-2xx response carries. -/
def errBody (msg : String) : Json := .obj [("error", .str msg)]

/-- A row of the `users` table. -/
structure UserRow where
  id : Nat
  username : String
  password : String
  role : String
deriving DecidableEq, Repr

/-- The `users` table: its rows and the next value of the `id` sequence. -/
structure UsersTable where
  rows : List UserRow
  nextId : Nat
deriving DecidableEq, Repr

/-- A row of the `admin` table. -/
structure AdminRow where
  id : Nat
  username : String
  password : String
  role : String
deriving DecidableEq, Repr

/-- The `admin` table: its rows and the next value of the `id` sequence. -/
structure AdminTable where
  rows : List AdminRow
  nextId : Nat
deriving DecidableEq, Repr

/-- A row of the `requests` table. -/
structure RequestRow where
  id : Nat
  username : String
  product_name : String
  quantity : Int
  request_date : Nat
  status : String
deriving DecidableEq, Repr

/-- The `requests` table: its rows and the next value of the `id` sequence. -/
structure RequestsTable where
  rows : List RequestRow
  nextId : Nat
deriving DecidableEq, Repr

/-- Whether a username is already present in `users` (the condition under
which the INSERT raises the unique-violation error `23505`). -/
def UsersTable.memU (st : UsersTable) (u : String) : Bool :=
  st.rows.any (fun r => r.username == u)

/-- `SELECT * FROM users WHERE username = $1` (first matching row). -/
def UsersTable.findU (st : UsersTable) (u : String) : Option UserRow :=
  st.rows.find? (fun r => r.username == u)

/-- Whether a username is already present in `admin` (the ON CONFLICT case). -/
def AdminTable.memA (st : AdminTable) (u : String) : Bool :=
  st.rows.any (fun r => r.username == u)

/-- `SELECT * FROM admin WHERE username = $1`.  When the body field is absent
the driver binds SQL NULL, and `username = NULL` matches no row. -/
def AdminTable.findA (st : AdminTable) (u : Option String) : Option AdminRow :=
  match u with
  | none => none
  | some s => st.rows.find? (fun r => r.username == s)

/-- POST /api/auth/register.  Presence check on the three fields, then hash
and INSERT; the unique constraint on `username` surfaces as error code 23505,
mapped to 409; any other store/hash failure (`fault`) maps to 500. -/
def register (st : UsersTable) (username password role : Option String)
    (fault : Bool) : Response × UsersTable :=
  match username, password, role with
  | some u, some p, some r =>
    if u = "" ∨ p = "" ∨ r = "" then
      (⟨400, errBody "Missing username, password, or role"⟩, st)
    else if fault then (⟨500, errBody "Internal server error"⟩, st)
    else if st.memU u then (⟨409, errBody "Username already exists"⟩, st)
    else
      (⟨201, .obj [("message", .str "User registered successfully!"),
                   ("user", .obj [("id", .num (st.nextId : Int)),
                                  ("username", .str u), ("role", .str r)])]⟩,
       ⟨st.rows ++ [⟨st.nextId, u, bcryptHash p, r⟩], st.nextId + 1⟩)
  | _, _, _ => (⟨400, errBody "Missing username, password, or role"⟩, st)

/-- POST /api/auth/login.  Presence check, lookup by username, bcrypt compare,
then a signed token with a 1-hour (3600 s) expiry returned alongside the
username. -/
def login (st : UsersTable) (username password : Option String) (fault : Bool)
    (now : Nat) (secret : String) : Response :=
  match username, password with
  | some u, some p =>
    if u = "" ∨ p = "" then ⟨400, errBody "Missing username or password"⟩
    else if fault then ⟨500, errBody "Internal server error"⟩
    else
      match st.findU u with
      | none => ⟨401, errBody "Invalid username or password"⟩
      | some user =>
        match bcryptCompare (some p) user.password with
        | .error _ => ⟨500, errBody "Internal server error"⟩
        | .ok false => ⟨401, errBody "Invalid username or password"⟩
        | .ok true =>
          ⟨200, .obj [("message", .str "Login successful"),
                      ("token", .jtok (jwtSign ⟨user.id, user.username, user.role⟩ secret now 3600)),
                      ("username", .str user.username)]⟩
  | _, _ => ⟨400, errBody "Missing username or password"⟩

/-- The JSON object `RETURNING *` produces for a request row. -/
def requestJson (r : RequestRow) : Json :=
  .obj [("id", .num (r.id : Int)), ("username", .str r.username),
        ("product_name", .str r.product_name), ("quantity", .num r.quantity),
        ("request_date", .num (r.request_date : Int)), ("status", .str r.status)]

/-- POST /api/requests.  `!username || !product_name || !quantity` rejects a
missing or empty string and a missing or zero quantity; otherwise INSERT with
default status Pending and the current timestamp. -/
def submitRequest (st : RequestsTable) (username product_name : Option String)
    (quantity : Option Int) (fault : Bool) (now : Nat) : Response × RequestsTable :=
  match username, product_name, quantity with
  | some u, some pn, some q =>
    if u = "" ∨ pn = "" ∨ q = 0 then
      (⟨400, errBody "Missing username, product name, or quantity"⟩, st)
    else if fault then (⟨500, errBody "Internal server error"⟩, st)
    else
      (⟨201, .obj [("message", .str "Request submitted successfully!"),
                   ("request", requestJson ⟨st.nextId, u, pn, q, now, "Pending"⟩)]⟩,
       ⟨st.rows ++ [⟨st.nextId, u, pn, q, now, "Pending"⟩], st.nextId + 1⟩)
  | _, _, _ => (⟨400, errBody "Missing username, product name, or quantity"⟩, st)

/-- A request row with its status overwritten (`UPDATE requests SET status`). -/
def setStatus (s : String) (r : RequestRow) : RequestRow := { r with status := s }

/-- PATCH /api/requests/:id.  Presence check on `status`, then
`UPDATE requests SET status = $1 WHERE id = $2 RETURNING *`; an empty RETURNING
set is 404, otherwise the first returned row is echoed with 200. -/
def patchRequest (st : RequestsTable) (i : Nat) (status : Option String)
    (fault : Bool) : Response × RequestsTable :=
  match status with
  | some s =>
    if s = "" then (⟨400, errBody "Status is required"⟩, st)
    else if fault then (⟨500, errBody "Internal server error"⟩, st)
    else
      match (st.rows.filter (fun r => r.id == i)).map (setStatus s) with
      | [] => (⟨404, errBody "Request not found"⟩, st)
      | r0 :: _ =>
        (⟨200, .obj [("message", .str "Status updated successfully!"),
                     ("request", requestJson r0)]⟩,
         ⟨st.rows.map (fun r => if r.id == i then setStatus s r else r), st.nextId⟩)
  | none => (⟨400, errBody "Status is required"⟩, st)

/-- GET /api/requests.  The handler reads no header at all: the Authorization
header is ignored and every row is returned. -/
def getRequests (st : RequestsTable) (_authHeader : Option (List TokenStr))
    (fault : Bool) : Response :=
  if fault then ⟨500, errBody "Internal server error"⟩
  else ⟨200, .arr (st.rows.map requestJson)⟩

/-- POST /api/admin/add.  Presence check, then
`INSERT ... ON CONFLICT (username) DO NOTHING`; the success message is sent
whether or not a row was inserted. -/
def addAdmin (st : AdminTable) (username password : Option String)
    (fault : Bool) : Response × AdminTable :=
  match username, password with
  | some u, some p =>
    if u = "" ∨ p = "" then (⟨400, errBody "Missing username or password."⟩, st)
    else if fault then (⟨500, errBody "Internal server error."⟩, st)
    else if st.memA u then
      (⟨200, .obj [("message", .str ("Admin " ++ u ++ " added successfully!"))]⟩, st)
    else
      (⟨200, .obj [("message", .str ("Admin " ++ u ++ " added successfully!"))]⟩,
       ⟨st.rows ++ [⟨st.nextId, u, bcryptHash p, "admin"⟩], st.nextId + 1⟩)
  | _, _ => (⟨400, errBody "Missing username or password."⟩, st)

/-- POST /api/admin/login.  No presence check: the lookup runs with whatever
was in the body (a missing username binds SQL NULL), and `bcrypt.compare`
receives the password field as-is, rejecting when it is not a string.  A
successful login answers `{ token }` only. -/
def adminLogin (st : AdminTable) (username password : Option String)
    (fault : Bool) (now : Nat) (secret : String) : Response :=
  if fault then ⟨500, errBody "Internal server error."⟩
  else
    match st.findA username with
    | none => ⟨401, errBody "Invalid username or password."⟩
    | some admin =>
      match bcryptCompare password admin.password with
      | .error _ => ⟨500, errBody "Internal server error."⟩
      | .ok false => ⟨401, errBody "Invalid username or password."⟩
      | .ok true =>
        ⟨200, .obj [("token", .jtok (jwtSign ⟨admin.id, admin.username, admin.role⟩ secret now 3600))]⟩

/-- `req.headers.authorization?.split(' ')[1]`: the second space-separated
word of the Authorization header, when the header is present and has one. -/
def extractToken (h : Option (List TokenStr)) : Option TokenStr :=
  h.bind (fun ws => ws.get? 1)

/-- GET /api/admin/profile.  Token extraction, `jwt.verify`, then
`SELECT id, username, role FROM admin WHERE id = $1`.  The SELECT runs inside
the same try block as the verification, so a store fault is caught by the
catch that answers 401 Invalid token. -/
def adminProfile (st : AdminTable) (h : Option (List TokenStr)) (fault : Bool)
    (now : Nat) (secret : String) : Response :=
  match extractToken h with
  | none => ⟨401, errBody "Unauthorized: No token provided."⟩
  | some ts =>
    match jwtVerifyStr ts secret now with
    | none => ⟨401, errBody "Unauthorized: Invalid token."⟩
    | some c =>
      if fault then ⟨401, errBody "Unauthorized: Invalid token."⟩
      else
        match st.rows.find? (fun r => r.id == c.id) with
        | none => ⟨404, errBody "Admin not found."⟩
        | some r =>
          ⟨200, .obj [("id", .num (r.id : Int)), ("username", .str r.username),
                      ("role", .str r.role)]⟩

/-- GET /api/admin/all.  The handler reads no header: every admin row is
returned projected to id, username, role. -/
def getAdminsAll (st : AdminTable) (_authHeader : Option (List TokenStr))
    (fault : Bool) : Response :=
  if fault then ⟨500, errBody "Internal server error."⟩
  else
    ⟨200, .arr (st.rows.map (fun r =>
      Json.obj [("id", .num (r.id : Int)), ("username", .str r.username),
                ("role", .str r.role)]))⟩

/-- What the middleware does with a request: answer immediately, or attach the
decoded claims (`req.admin = decoded`) and call `next()`. -/
inductive MWResult where
  | respond : Response → MWResult
  | proceed : Claims → MWResult
deriving Repr

/-- The `verifyAdminToken` middleware. -/
def verifyAdminToken (h : Option (List TokenStr)) (secret : String)
    (now : Nat) : MWResult :=
  match extractToken h with
  | none => .respond ⟨401, errBody "Unauthorized: No token provided."⟩
  | some ts =>
    match jwtVerifyStr ts secret now with
    | none => .respond ⟨401, errBody "Unauthorized: Invalid token."⟩
    | some c =>
      if c.role ≠ "admin" then .respond ⟨403, errBody "Forbidden: Not an admin."⟩
      else .proceed c

/-- A body field that JavaScript treats as falsy: absent, or the empty string. -/
def missingS (o : Option String) : Prop := o = none ∨ o = some ""

/-- Inserting a row with username `u` makes `u` present in the users table. -/
theorem memU_append_self (rows : List UserRow) (n : Nat) (u pw r : String) :
    (UsersTable.mk (rows ++ [⟨n, u, pw, r⟩]) (n + 1)).memU u = true := by
  simp [UsersTable.memU]

/-- Example users table: one registered user alice. -/
def stAlice : UsersTable := ⟨[⟨1, "alice", bcryptHash "p1", "user"⟩], 2⟩

/-- C1: register with all three fields present answers 409 with an error body
when the username already exists (leaving the table unchanged), so registering
the same username twice yields 201 then 409; any missing (or empty) field
yields 400 with the table unchanged; any other store failure yields 500 with
the table unchanged. -/
theorem C1_register_conflict_behavior
    (st : UsersTable) (u p r p2 r2 : String)
    (hu : u ≠ "") (hp : p ≠ "") (hr : r ≠ "") (hp2 : p2 ≠ "") (hr2 : r2 ≠ "") :
    (st.memU u = true →
      register st (some u) (some p) (some r) false
        = (⟨409, errBody "Username already exists"⟩, st))
    ∧ (st.memU u = false →
      (register st (some u) (some p) (some r) false).1.status = 201
      ∧ (register (register st (some u) (some p) (some r) false).2
           (some u) (some p2) (some r2) false).1.status = 409)
    ∧ (∀ uo po ro : Option String, missingS uo ∨ missingS po ∨ missingS ro →
        register st uo po ro false
          = (⟨400, errBody "Missing username, password, or role"⟩, st))
    ∧ register st (some u) (some p) (some r) true
        = (⟨500, errBody "Internal server error"⟩, st) := by
  refine ⟨?_, ?_, ?_, ?_⟩
  · intro h
    simp [register, hu, hp, hr, h]
  · intro h
    refine ⟨by simp [register, hu, hp, hr, h], ?_⟩
    have h2 : (register st (some u) (some p) (some r) false).2
        = ⟨st.rows ++ [⟨st.nextId, u, bcryptHash p, r⟩], st.nextId + 1⟩ := by
      simp [register, hu, hp, hr, h]
    rw [h2]
    simp [register, hu, hp2, hr2, memU_append_self]
  · intro uo po ro h
    rcases uo with _ | u0 <;> rcases po with _ | p0 <;> rcases ro with _ | r0 <;>
      simp_all [register, missingS]
  · simp [register, hu, hp, hr]

/-- C1 witness: on an empty users table, registering alice answers 201 and
registering alice again answers 409. -/
theorem C1_register_conflict_behavior_witness :
    (register ⟨[], 1⟩ (some "alice") (some "p1") (some "user") false).1.status = 201
    ∧ (register (register ⟨[], 1⟩ (some "alice") (some "p1") (some "user") false).2
         (some "alice") (some "p2") (some "user") false).1.status = 409 :=
  (C1_register_conflict_behavior ⟨[], 1⟩ "alice" "p1" "user" "p2" "user"
    (by decide) (by decide) (by decide) (by decide) (by decide)).2.1 rfl

/-- C2: for every users table and every present username/password pair, when
the username has no row or the stored hash does not verify against the
supplied password, login answers the one constant response: 401 with the body
having error Invalid username or password. -/
theorem C2_login_constant_unauthorized
    (st : UsersTable) (u p : String) (now : Nat) (secret : String)
    (hu : u ≠ "") (hp : p ≠ "")
    (h : st.findU u = none
         ∨ ∃ row, st.findU u = some row
             ∧ bcryptCompare (some p) row.password = .ok false) :
    login st (some u) (some p) false now secret
      = ⟨401, errBody "Invalid username or password"⟩ := by
  rcases h with h | ⟨row, hrow, hcmp⟩
  · simp [login, hu, hp, h]
  · simp [login, hu, hp, hrow, hcmp]

/-- C2 witness: a wrong password for alice and a nonexistent username bob get
the identical 401 response. -/
theorem C2_login_constant_unauthorized_witness :
    login stAlice (some "alice") (some "wrong") false 0 "k"
      = ⟨401, errBody "Invalid username or password"⟩
    ∧ login stAlice (some "bob") (some "p1") false 0 "k"
      = ⟨401, errBody "Invalid username or password"⟩ :=
  ⟨C2_login_constant_unauthorized stAlice "alice" "wrong" 0 "k" (by decide) (by decide)
     (Or.inr ⟨⟨1, "alice", bcryptHash "p1", "user"⟩, rfl, by rfl⟩),
   C2_login_constant_unauthorized stAlice "bob" "p1" 0 "k" (by decide) (by decide)
     (Or.inl (by decide))⟩

/-- C4: submitting a request with username, product name or quantity falsy
(absent or empty string, absent or zero quantity) answers 400 and leaves the
requests table unchanged, whatever the store would have done. -/
theorem C4_submit_missing_rejected
    (st : RequestsTable) (uo pno : Option String) (qo : Option Int)
    (fault : Bool) (now : Nat)
    (h : missingS uo ∨ missingS pno ∨ qo = none ∨ qo = some 0) :
    submitRequest st uo pno qo fault now
      = (⟨400, errBody "Missing username, product name, or quantity"⟩, st) := by
  rcases uo with _ | u <;> rcases pno with _ | pn <;> rcases qo with _ | q <;>
    simp_all [submitRequest, missingS]

/-- C4 witness: omitting quantity yields 400 and the table is unchanged. -/
theorem C4_submit_missing_rejected_witness :
    submitRequest ⟨[], 1⟩ (some "alice") (some "ssd") none false 0
      = (⟨400, errBody "Missing username, product name, or quantity"⟩, ⟨[], 1⟩) :=
  C4_submit_missing_rejected ⟨[], 1⟩ (some "alice") (some "ssd") none false 0
    (Or.inr (Or.inr (Or.inl rfl)))

/-- Example admin table: one seeded admin root. -/
def stRoot : AdminTable := ⟨[⟨1, "root", bcryptHash "pw", "admin"⟩], 2⟩

/-- C3 counterexample: admin login succeeds with 200 but its body carries no
username field at all — the token is not returned alongside the username
there, only user login does that. -/
theorem C3_admin_login_no_username :
    (adminLogin stRoot (some "root") (some "pw") false 0 "k").status = 200
    ∧ (adminLogin stRoot (some "root") (some "pw") false 0 "k").body.hasKey "username" = false := by
  constructor <;> rfl

/-- C3 amended: every successful login issues a token embedding exactly the
id, username and role of the matched row with expiry now + 3600 seconds; user
login returns the token alongside the username, while admin login returns the
token only; such a token verifies to exactly those claims strictly before its
expiry instant and is rejected from the expiry instant on. -/
theorem C3_token_issuance
    (ust : UsersTable) (ast : AdminTable) (u p ap secret : String)
    (auo : Option String) (now later : Nat) (urow : UserRow) (arow : AdminRow)
    (hu : u ≠ "") (hp : p ≠ "")
    (hfind : ust.findU u = some urow)
    (hpw : bcryptCompare (some p) urow.password = .ok true)
    (hafind : ast.findA auo = some arow)
    (hapw : bcryptCompare (some ap) arow.password = .ok true) :
    login ust (some u) (some p) false now secret
      = ⟨200, .obj [("message", .str "Login successful"),
                    ("token", .jtok ⟨⟨urow.id, urow.username, urow.role⟩, now + 3600, secret⟩),
                    ("username", .str urow.username)]⟩
    ∧ adminLogin ast auo (some ap) false now secret
      = ⟨200, .obj [("token", .jtok ⟨⟨arow.id, arow.username, arow.role⟩, now + 3600, secret⟩)]⟩
    ∧ (later < now + 3600 →
        jwtVerifyStr (.valid ⟨⟨urow.id, urow.username, urow.role⟩, now + 3600, secret⟩) secret later
          = some ⟨urow.id, urow.username, urow.role⟩)
    ∧ (now + 3600 ≤ later →
        jwtVerifyStr (.valid ⟨⟨urow.id, urow.username, urow.role⟩, now + 3600, secret⟩) secret later
          = none) := by
  refine ⟨?_, ?_, ?_, ?_⟩
  · simp [login, hu, hp, hfind, hpw, jwtSign]
  · simp [adminLogin, hafind, hapw, jwtSign]
  · intro hlt
    simp [jwtVerifyStr, hlt]
  · intro hge
    have hnlt : ¬ later < now + 3600 := Nat.not_lt.mpr hge
    simp [jwtVerifyStr, hnlt]

/-- C3 witness: logging alice in at instant 0 yields the expected 200 body
with the token expiring at 3600, and that token no longer verifies at 3600. -/
theorem C3_token_issuance_witness :
    login stAlice (some "alice") (some "p1") false 0 "k"
      = ⟨200, .obj [("message", .str "Login successful"),
                    ("token", .jtok ⟨⟨1, "alice", "user"⟩, 3600, "k"⟩),
                    ("username", .str "alice")]⟩
    ∧ jwtVerifyStr (.valid ⟨⟨1, "alice", "user"⟩, 3600, "k"⟩) "k" 3600 = none :=
  ⟨(C3_token_issuance stAlice stRoot "alice" "p1" "pw" "k" (some "root") 0 3600
      ⟨1, "alice", bcryptHash "p1", "user"⟩ ⟨1, "root", bcryptHash "pw", "admin"⟩
      (by decide) (by decide) rfl (by rfl) rfl (by rfl)).1,
   (C3_token_issuance stAlice stRoot "alice" "p1" "pw" "k" (some "root") 0 3600
      ⟨1, "alice", bcryptHash "p1", "user"⟩ ⟨1, "root", bcryptHash "pw", "admin"⟩
      (by decide) (by decide) rfl (by rfl) rfl (by rfl)).2.2.2 (Nat.le_refl 3600)⟩

/-- The first row a filter keeps is the first row the predicate finds. -/
theorem head?_filter_eq_find? (l : List RequestRow) (p : RequestRow → Bool) :
    (l.filter p).head? = l.find? p := by
  induction l with
  | nil => rfl
  | cons a t ih =>
    by_cases h : p a
    · simp [List.filter_cons_of_pos, List.find?_cons_of_pos, h]
    · simp [List.filter_cons_of_neg, List.find?_cons_of_neg, h, ih]

/-- C5: patching with a non-empty status: when a row with the given id exists,
that row's status is overwritten, the updated row is echoed with 200 and the
table keeps all other rows as they were; when no row matches, 404 and the
table is returned unchanged. -/
theorem C5_patch_status_update
    (st : RequestsTable) (i : Nat) (s : String) (hs : s ≠ "") :
    (∀ r, st.rows.find? (fun row => row.id == i) = some r →
      patchRequest st i (some s) false
        = (⟨200, .obj [("message", .str "Status updated successfully!"),
                       ("request", requestJson (setStatus s r))]⟩,
           ⟨st.rows.map (fun row => if row.id == i then setStatus s row else row),
            st.nextId⟩))
    ∧ (st.rows.find? (fun row => row.id == i) = none →
      patchRequest st i (some s) false = (⟨404, errBody "Request not found"⟩, st)) := by
  constructor
  · intro r hr
    have hh : (st.rows.filter (fun row => row.id == i)).head? = some r := by
      rw [head?_filter_eq_find?]
      exact hr
    rcases hfil : st.rows.filter (fun row => row.id == i) with _ | ⟨a, t⟩
    · rw [hfil] at hh
      simp at hh
    · rw [hfil] at hh
      have ha : a = r := by simpa using hh
      subst ha
      simp [patchRequest, hs, hfil]
  · intro hr
    have hh : (st.rows.filter (fun row => row.id == i)).head? = none := by
      rw [head?_filter_eq_find?]
      exact hr
    have hfil : st.rows.filter (fun row => row.id == i) = [] := by
      rcases hfil2 : st.rows.filter (fun row => row.id == i) with _ | ⟨a, t⟩
      · exact hfil2
      · rw [hfil2] at hh
        simp at hh
    simp [patchRequest, hs, hfil]

/-- Example requests table: one pending request by alice. -/
def stReq : RequestsTable := ⟨[⟨1, "alice", "ssd", 2, 0, "Pending"⟩], 2⟩

/-- C5 witness: patching the existing request answers 200 with the updated
row; patching a nonexistent id answers 404 and leaves the table unchanged. -/
theorem C5_patch_status_update_witness :
    patchRequest stReq 1 (some "Approved") false
      = (⟨200, .obj [("message", .str "Status updated successfully!"),
                     ("request", requestJson ⟨1, "alice", "ssd", 2, 0, "Approved"⟩)]⟩,
         ⟨[⟨1, "alice", "ssd", 2, 0, "Approved"⟩], 2⟩)
    ∧ patchRequest stReq 7 (some "Approved") false
      = (⟨404, errBody "Request not found"⟩, stReq) :=
  ⟨(C5_patch_status_update stReq 1 "Approved" (by decide)).1
     ⟨1, "alice", "ssd", 2, 0, "Pending"⟩ rfl,
   (C5_patch_status_update stReq 7 "Approved" (by decide)).2 rfl⟩

/-- Inserting a row with username `u` makes `u` present in the admin table. -/
theorem memA_append_self (rows : List AdminRow) (n : Nat) (u pw : String) :
    (AdminTable.mk (rows ++ [⟨n, u, pw, "admin"⟩]) (n + 1)).memA u = true := by
  simp [AdminTable.memA]

/-- C6: adding an admin whose username already exists is a silent no-op — the
table, including the stored hash, is returned unchanged and the response is
the 200 success message, not a conflict; consequently adding the same
username twice leaves exactly the state of adding it once. -/
theorem C6_addAdmin_upsert_ignore
    (st : AdminTable) (u p p2 : String) (hu : u ≠ "") (hp : p ≠ "") (hp2 : p2 ≠ "") :
    (st.memA u = true →
      addAdmin st (some u) (some p) false
        = (⟨200, .obj [("message", .str ("Admin " ++ u ++ " added successfully!"))]⟩, st))
    ∧ (addAdmin (addAdmin st (some u) (some p) false).2 (some u) (some p2) false).2
        = (addAdmin st (some u) (some p) false).2 := by
  constructor
  · intro h
    simp [addAdmin, hu, hp, h]
  · by_cases h : st.memA u = true
    · have h1 : (addAdmin st (some u) (some p) false).2 = st := by
        simp [addAdmin, hu, hp, h]
      rw [h1]
      simp [addAdmin, hu, hp2, h]
    · have h1 : (addAdmin st (some u) (some p) false).2
          = ⟨st.rows ++ [⟨st.nextId, u, bcryptHash p, "admin"⟩], st.nextId + 1⟩ := by
        simp [addAdmin, hu, hp, h]
      rw [h1]
      simp [addAdmin, hu, hp2, memA_append_self]

/-- C6 witness: re-adding root over the seeded table is a 200 no-op, and two
adds of the same fresh username on the empty table equal one add. -/
theorem C6_addAdmin_upsert_ignore_witness :
    addAdmin stRoot (some "root") (some "other") false
      = (⟨200, .obj [("message", .str ("Admin " ++ "root" ++ " added successfully!"))]⟩, stRoot)
    ∧ (addAdmin (addAdmin ⟨[], 1⟩ (some "root") (some "a") false).2 (some "root") (some "b") false).2
        = (addAdmin ⟨[], 1⟩ (some "root") (some "a") false).2 :=
  ⟨(C6_addAdmin_upsert_ignore stRoot "root" "other" "x" (by decide) (by decide) (by decide)).1 rfl,
   (C6_addAdmin_upsert_ignore ⟨[], 1⟩ "root" "a" "b" (by decide) (by decide) (by decide)).2⟩

/-- C7: the admin guard answers 401 when no bearer token is present in the
Authorization header, 401 when the token fails verification, 403 when the
verified token's role is not admin, and otherwise attaches the decoded claims
and passes control on. -/
theorem C7_verifyAdminToken_gate
    (h : Option (List TokenStr)) (secret : String) (now : Nat) :
    (extractToken h = none →
      verifyAdminToken h secret now
        = .respond ⟨401, errBody "Unauthorized: No token provided."⟩)
    ∧ (∀ ts, extractToken h = some ts → jwtVerifyStr ts secret now = none →
      verifyAdminToken h secret now
        = .respond ⟨401, errBody "Unauthorized: Invalid token."⟩)
    ∧ (∀ ts c, extractToken h = some ts → jwtVerifyStr ts secret now = some c →
      c.role ≠ "admin" →
      verifyAdminToken h secret now
        = .respond ⟨403, errBody "Forbidden: Not an admin."⟩)
    ∧ (∀ ts c, extractToken h = some ts → jwtVerifyStr ts secret now = some c →
      c.role = "admin" →
      verifyAdminToken h secret now = .proceed c) := by
  refine ⟨?_, ?_, ?_, ?_⟩
  · intro he
    simp [verifyAdminToken, he]
  · intro ts he hv
    simp [verifyAdminToken, he, hv]
  · intro ts c he hv hrole
    simp [verifyAdminToken, he, hv, hrole]
  · intro ts c he hv hrole
    simp [verifyAdminToken, he, hv, hrole]

/-- C7 witness: a Bearer header carrying an unexpired admin token passes the
guard, which attaches the decoded claims. -/
theorem C7_verifyAdminToken_gate_witness :
    verifyAdminToken (some [.garbage "Bearer", .valid ⟨⟨1, "root", "admin"⟩, 3600, "k"⟩]) "k" 0
      = .proceed ⟨1, "root", "admin"⟩ :=
  (C7_verifyAdminToken_gate
      (some [.garbage "Bearer", .valid ⟨⟨1, "root", "admin"⟩, 3600, "k"⟩]) "k" 0).2.2.2
    (.valid ⟨⟨1, "root", "admin"⟩, 3600, "k"⟩) ⟨1, "root", "admin"⟩ rfl (by rfl) rfl

/-- C8: admin profile answers 200 with exactly the id, username and role of
the row matching the verified token's id; 404 when the token verifies but no
row matches; 401 when the token is missing or fails verification (a store
fault lands in the same catch and the same 401); and no status outside 200,
401, 404 is ever produced. -/
theorem C8_admin_profile_codes
    (st : AdminTable) (h : Option (List TokenStr)) (secret : String)
    (now : Nat) (fault : Bool) :
    (∀ ts c r, extractToken h = some ts → jwtVerifyStr ts secret now = some c →
      st.rows.find? (fun row => row.id == c.id) = some r →
      adminProfile st h false now secret
        = ⟨200, .obj [("id", .num (r.id : Int)), ("username", .str r.username),
                      ("role", .str r.role)]⟩)
    ∧ (∀ ts c, extractToken h = some ts → jwtVerifyStr ts secret now = some c →
      st.rows.find? (fun row => row.id == c.id) = none →
      adminProfile st h false now secret = ⟨404, errBody "Admin not found."⟩)
    ∧ (extractToken h = none →
      adminProfile st h fault now secret
        = ⟨401, errBody "Unauthorized: No token provided."⟩)
    ∧ (∀ ts, extractToken h = some ts → jwtVerifyStr ts secret now = none →
      adminProfile st h fault now secret
        = ⟨401, errBody "Unauthorized: Invalid token."⟩)
    ∧ ((adminProfile st h fault now secret).status = 200
       ∨ (adminProfile st h fault now secret).status = 401
       ∨ (adminProfile st h fault now secret).status = 404) := by
  refine ⟨?_, ?_, ?_, ?_, ?_⟩
  · intro ts c r he hv hf
    simp [adminProfile, he, hv, hf]
  · intro ts c he hv hf
    simp [adminProfile, he, hv, hf]
  · intro he
    simp [adminProfile, he]
  · intro ts he hv
    simp [adminProfile, he, hv]
  · rcases hE : extractToken h with _ | ts
    · simp [adminProfile, hE]
    · rcases hV : jwtVerifyStr ts secret now with _ | c
      · simp [adminProfile, hE, hV]
      · cases fault with
        | false =>
          rcases hF : st.rows.find? (fun row => row.id == c.id) with _ | r
          · simp [adminProfile, hE, hV, hF]
          · simp [adminProfile, hE, hV, hF]
        | true => simp [adminProfile, hE, hV]

/-- C8 witness: with the seeded admin and a valid token for id 1 the profile
endpoint answers 200 with exactly id, username and role. -/
theorem C8_admin_profile_codes_witness :
    adminProfile stRoot
        (some [.garbage "Bearer", .valid ⟨⟨1, "root", "admin"⟩, 3600, "k"⟩]) false 0 "k"
      = ⟨200, .obj [("id", .num 1), ("username", .str "root"), ("role", .str "admin")]⟩ :=
  (C8_admin_profile_codes stRoot
      (some [.garbage "Bearer", .valid ⟨⟨1, "root", "admin"⟩, 3600, "k"⟩]) "k" 0 false).1
    (.valid ⟨⟨1, "root", "admin"⟩, 3600, "k"⟩) ⟨1, "root", "admin"⟩
    ⟨1, "root", bcryptHash "pw", "admin"⟩ rfl (by rfl) rfl

/-- C9: the two list endpoints check no authentication: with no Authorization
header (indeed regardless of the header, which the handlers never read) they
answer 200 with every row of their table, admins projected to id, username
and role. -/
theorem C9_unauthenticated_lists
    (rst : RequestsTable) (ast : AdminTable) (h1 h2 : Option (List TokenStr)) :
    getRequests rst none false = ⟨200, .arr (rst.rows.map requestJson)⟩
    ∧ getAdminsAll ast none false
      = ⟨200, .arr (ast.rows.map (fun r =>
          Json.obj [("id", .num (r.id : Int)), ("username", .str r.username),
                    ("role", .str r.role)]))⟩
    ∧ getRequests rst h1 false = getRequests rst none false
    ∧ getAdminsAll ast h2 false = getAdminsAll ast none false :=
  ⟨rfl, rfl, rfl, rfl⟩

/-- C10 counterexample: with the seeded admin present, an admin login whose
body carries the username but no password answers 500, not 401 — the hash
verify rejects the missing password and the catch maps it to Internal server
error. -/
theorem C10_missing_password_500 :
    adminLogin stRoot (some "root") none false 0 "k"
      = ⟨500, errBody "Internal server error."⟩ := rfl

/-- C10 amended: admin login performs no presence validation — a missing
username binds SQL NULL, matches no row and yields 401 whatever the password;
a username with no matching row yields 401; but a missing password together
with a matching username makes the hash verification reject and is answered
500; and in no case does the endpoint answer 400, unlike user login. -/
theorem C10_admin_login_no_validation
    (st : AdminTable) (p : Option String) (u : String) (arow : AdminRow)
    (secret : String) (now : Nat) :
    adminLogin st none p false now secret
      = ⟨401, errBody "Invalid username or password."⟩
    ∧ (st.findA (some u) = none →
      adminLogin st (some u) p false now secret
        = ⟨401, errBody "Invalid username or password."⟩)
    ∧ (st.findA (some u) = some arow →
      adminLogin st (some u) none false now secret
        = ⟨500, errBody "Internal server error."⟩)
    ∧ (∀ uo po : Option String, ∀ fault : Bool,
      (adminLogin st uo po fault now secret).status ≠ 400) := by
  refine ⟨?_, ?_, ?_, ?_⟩
  · simp [adminLogin, AdminTable.findA]
  · intro hf
    simp [adminLogin, hf]
  · intro hf
    simp [adminLogin, hf, bcryptCompare]
  · intro uo po fault
    cases fault with
    | false =>
      rcases hf : st.findA uo with _ | arow2
      · simp [adminLogin, hf]
      · rcases hc : bcryptCompare po arow2.password with e | b
        · simp [adminLogin, hf, hc]
        · cases b <;> simp [adminLogin, hf, hc]
    | true => simp [adminLogin]

/-- C10 witness: a missing username yields 401, and a missing password with
the seeded username yields 500. -/
theorem C10_admin_login_no_validation_witness :
    adminLogin stRoot none (some "pw") false 0 "k"
      = ⟨401, errBody "Invalid username or password."⟩
    ∧ adminLogin stRoot (some "root") none false 0 "k"
      = ⟨500, errBody "Internal server error."⟩ :=
  ⟨(C10_admin_login_no_validation stRoot (some "pw") "root"
      ⟨1, "root", bcryptHash "pw", "admin"⟩ "k" 0).1,
   (C10_admin_login_no_validation stRoot (some "pw") "root"
      ⟨1, "root", bcryptHash "pw", "admin"⟩ "k" 0).2.2.1 rfl⟩

end RaffApp
